import Mathlib

/-!
# Gnoke Library — verification of the persistence + loan-lifecycle core

Shallow embedding of `db-core.js` (the Database Engine: one live sql.js
instance, dirty flag, full-blob persistence to IndexedDB, BEGIN/COMMIT/ROLLBACK
transactions, export/restore) and `db-library.js` (the Catalogue & Loan
Repository: books, categories, borrows, stats).

The embedded SQLite database is modelled as explicit row lists with
engine-assigned surrogate ids.  SQL string normalisation `LOWER(TRIM(x))`
is modelled faithfully to SQLite semantics: `TRIM` strips only space
characters and `LOWER` folds only ASCII letters.  The seed schema file
(`data/library.db`) is not part of the sources; following the spec
("history in closed Borrow rows referencing this id is retained — a
dangling-but-tolerated reference"), tables are modelled without foreign-key
enforcement.
-/

/-- SQLite `TRIM(x)`: strips leading/trailing space characters (U+0020 only). -/
def sqlTrimList (cs : List Char) : List Char :=
  ((cs.dropWhile (· == ' ')).reverse.dropWhile (· == ' ')).reverse

/-- SQLite `TRIM` on strings. -/
def sqlTrim (s : String) : String := String.mk (sqlTrimList s.toList)

/-- SQLite `LOWER(x)`: ASCII case folding (`Char.toLower` is ASCII-only),
applied character by character. -/
def sqlLower (s : String) : String := String.mk (s.toList.map Char.toLower)

/-- `LOWER(TRIM(x))` — the normalisation used by the repository for
title/isbn merge detection and category-name comparison. -/
def normKey (s : String) : String := sqlLower (sqlTrim s)

/-- Substring test on character lists (used for SQL `LIKE '%t%'`). -/
def charsContains (hay needle : List Char) : Bool :=
  hay.tails.any (fun t => needle.isPrefixOf t)

/-- SQL `x LIKE '%t%'`: case-insensitive (ASCII) substring match. -/
def likeContains (hay term : String) : Bool :=
  charsContains (sqlLower hay).toList (sqlLower term).toList

/-- A row of the `books` table. -/
structure Book where
  id : Nat
  title : String
  author : String
  isbn : String
  category : String
  copies : Int
deriving Repr, DecidableEq

/-- A row of the `categories` table. -/
structure Category where
  id : Nat
  name : String
deriving Repr, DecidableEq

/-- A row of the `borrows` table; `return_date = none` means the loan is open. -/
structure Borrow where
  id : Nat
  book_id : Nat
  borrower : String
  date_out : String
  due_date : String
  return_date : Option String
deriving Repr, DecidableEq

/-- The in-memory relational database: the four application tables plus the
engine-assigned surrogate-id counters (SQLite rowid allocation). -/
structure DBState where
  books : List Book
  categories : List Category
  borrows : List Borrow
  settings : List (String × String)
  nextBookId : Nat
  nextCategoryId : Nat
  nextBorrowId : Nat
deriving Repr, DecidableEq

/-- The mutating SQL statements issued by `db-library.js`, deeply embedded. -/
inductive Stmt where
  /-- `INSERT INTO books (title, author, isbn, category, copies) VALUES (?,?,?,?,?)` -/
  | insertBook (title author isbn category : String) (copies : Int)
  /-- `UPDATE books SET copies = copies + ? WHERE id = ?` -/
  | addCopies (k : Int) (id : Nat)
  /-- `UPDATE books SET title = ?, author = ?, category = ? WHERE id = ?` -/
  | updateBookFields (title author category : String) (id : Nat)
  /-- `DELETE FROM books WHERE id = ?` -/
  | deleteBookRow (id : Nat)
  /-- `INSERT INTO categories (name) VALUES (?)` -/
  | insertCategory (name : String)
  /-- `UPDATE categories SET name = ? WHERE id = ?` -/
  | updateCategoryName (newName : String) (id : Nat)
  /-- `DELETE FROM categories WHERE id = ?` -/
  | deleteCategoryRow (id : Nat)
  /-- `INSERT INTO borrows (book_id, borrower, date_out, due_date) VALUES (?,?,?,?)`
      — `return_date` is not in the column list, so the new row has it NULL. -/
  | insertBorrow (bookId : Nat) (borrower dateOut dueDate : String)
  /-- `UPDATE borrows SET return_date = ? WHERE id = ?` -/
  | setReturnDate (d : String) (id : Nat)
  /-- `UPDATE books SET copies = copies - 1 WHERE id = ?` -/
  | decCopies (id : Nat)
  /-- `UPDATE books SET copies = copies + 1 WHERE id = ?` -/
  | incCopies (id : Nat)
  /-- `UPDATE books SET category = ? WHERE LOWER(TRIM(category)) = LOWER(TRIM(?))` -/
  | updateBooksCategory (newName oldName : String)
  /-- `DELETE FROM borrows` / `DELETE FROM books` / `DELETE FROM categories`
      / `DELETE FROM settings` -/
  | deleteAllBorrows | deleteAllBooks | deleteAllCategories | deleteAllSettings
  /-- `INSERT INTO settings (key, value) VALUES (?, ?) ON CONFLICT(key) DO UPDATE
      SET value = excluded.value` -/
  | upsertSetting (key value : String)
deriving Repr, DecidableEq

/-- Semantics of one mutating statement against the in-memory database. -/
def applyStmt (st : Stmt) (s : DBState) : DBState :=
  match st with
  | .insertBook t a i c k =>
      let b : Book :=
        { id := s.nextBookId, title := t, author := a, isbn := i,
          category := c, copies := k }
      { s with books := s.books ++ [b], nextBookId := s.nextBookId + 1 }
  | .addCopies k id =>
      { s with books := s.books.map (fun b =>
          if b.id == id then { b with copies := b.copies + k } else b) }
  | .updateBookFields t a c id =>
      { s with books := s.books.map (fun b =>
          if b.id == id then { b with title := t, author := a, category := c } else b) }
  | .deleteBookRow id =>
      { s with books := s.books.filter (fun b => !(b.id == id)) }
  | .insertCategory n =>
      let c : Category := { id := s.nextCategoryId, name := n }
      { s with
        categories := s.categories ++ [c],
        nextCategoryId := s.nextCategoryId + 1 }
  | .updateCategoryName n id =>
      { s with categories := s.categories.map (fun c =>
          if c.id == id then { c with name := n } else c) }
  | .deleteCategoryRow id =>
      { s with categories := s.categories.filter (fun c => !(c.id == id)) }
  | .insertBorrow bid borrower out due =>
      let b : Borrow :=
        { id := s.nextBorrowId, book_id := bid, borrower := borrower,
          date_out := out, due_date := due, return_date := none }
      { s with borrows := s.borrows ++ [b], nextBorrowId := s.nextBorrowId + 1 }
  | .setReturnDate d id =>
      { s with borrows := s.borrows.map (fun b =>
          if b.id == id then { b with return_date := some d } else b) }
  | .decCopies id =>
      { s with books := s.books.map (fun b =>
          if b.id == id then { b with copies := b.copies - 1 } else b) }
  | .incCopies id =>
      { s with books := s.books.map (fun b =>
          if b.id == id then { b with copies := b.copies + 1 } else b) }
  | .updateBooksCategory newName oldName =>
      { s with books := s.books.map (fun b =>
          if normKey b.category == normKey oldName
          then { b with category := newName } else b) }
  | .deleteAllBorrows => { s with borrows := [] }
  | .deleteAllBooks => { s with books := [] }
  | .deleteAllCategories => { s with categories := [] }
  | .deleteAllSettings => { s with settings := [] }
  | .upsertSetting k v =>
      if s.settings.any (fun kv => kv.1 == k)
      then { s with settings := s.settings.map (fun kv =>
              if kv.1 == k then (kv.1, v) else kv) }
      else { s with settings := s.settings ++ [(k, v)] }

/-- Run a list of statements in order (the body of a transaction). -/
def applyStmts (sts : List Stmt) (s : DBState) : DBState :=
  sts.foldl (fun acc st => applyStmt st acc) s

/-- The engine's `_db` handle: `noDB` is `_db === null`; `closedDB` is a handle
that still references a `Database` object on which `.close()` was called. -/
inductive LiveHandle where
  | noDB
  | openDB (s : DBState)
  | closedDB
deriving Repr, DecidableEq

/-- A binary blob as handed to `restoreFromSnapshot` / stored in IndexedDB:
either the serialisation of some database state, or unparseable garbage. -/
inductive Blob where
  | wellFormed (s : DBState)
  | malformed
deriving Repr, DecidableEq

/-- `new SQL.Database(uint8)` — the parse step of the failure model:
a malformed blob fails it. -/
def parseBlob : Blob → Option DBState
  | .wellFormed s => some s
  | .malformed => none

/-- `db.export()` — serialise the live instance. -/
def exportBlob (s : DBState) : Blob := .wellFormed s

namespace DB

/-- State of the `DB` module of `db-core.js`: the live handle `_db`, the blob
currently stored in IndexedDB under the fixed key (held as the state it
serialises, `none` when absent), and the `_dirty` flag. -/
structure Engine where
  live : LiveHandle
  persisted : Option DBState
  dirty : Bool
deriving Repr, DecidableEq

/-- The live database state when `_db` is an open instance. -/
def liveState (e : Engine) : Option DBState :=
  match e.live with
  | .openDB s => some s
  | _ => none

/-- `DB.persist()`: serialise and write the whole database to IndexedDB;
no-op unless dirty. -/
def persist (e : Engine) : Engine :=
  match e.live with
  | .openDB s => if e.dirty then { e with persisted := some s, dirty := false } else e
  | _ => e

/-- `DB.run(sql, params)` for the statements of this repository: executes the
statement on the live instance, marks dirty, persists.  When `_db` is not an
open instance the call throws and changes nothing (second component `true`
signals the raised error). -/
def run (e : Engine) (st : Stmt) : Engine × Bool :=
  match e.live with
  | .openDB s =>
      let s' := applyStmt st s
      (persist { e with live := .openDB s', dirty := true }, false)
  | _ => (e, true)

/-- `DB.transaction(fn)`: `BEGIN`, run the body's statements through the
transaction-scoped executor (which does not persist per-statement), then
`COMMIT`, mark dirty and persist once.  A body that raises after its
statements (`bodyFails = true`) triggers `ROLLBACK` — restoring the
pre-`BEGIN` instance — and the error is re-raised (second component `true`).
When `_db` is not an open instance the call throws and changes nothing. -/
def transaction (e : Engine) (body : List Stmt) (bodyFails : Bool) : Engine × Bool :=
  match e.live with
  | .openDB s =>
      let s' := applyStmts body s
      if bodyFails then
        ({ e with live := .openDB s }, true)
      else
        (persist { e with live := .openDB s', dirty := true }, false)
  | _ => (e, true)

/-- `DB.restoreDB(file)`: reads the file, closes the current live instance if
any, parses the blob into a fresh instance, and writes its serialisation to
IndexedDB.  Note the order: `_db.close()` happens before `new
_SQL.Database(uint8)`, so a failing parse leaves `_db` referencing the closed
instance.  Second component `true` signals the raised error. -/
def restoreDB (e : Engine) (file : Blob) : Engine × Bool :=
  let e1 : Engine :=
    { e with live := match e.live with
        | .openDB _ => .closedDB
        | h => h }
  match parseBlob file with
  | none => (e1, true)
  | some s => ({ live := .openDB s, persisted := some s, dirty := e1.dirty }, false)

end DB

/-- The errors thrown by `db-library.js` (each an `Error` with the message
given by `LibError.message`), plus the engine-level unavailability error
raised by `DB.query` / `DB.run` / `DB.transaction` when `_db` is not an open
instance. -/
inductive LibError where
  | engineUnavailable
  | notFound
  | noCopies
  | hasActiveLoans
  | duplicateCategory
  | duplicateName
  | categoryNotFound
  | categoryInUse
deriving Repr, DecidableEq

/-- The message string of each thrown `Error`, verbatim from the source. -/
def LibError.message : LibError → String
  | .engineUnavailable => "[DB] Not initialised."
  | .notFound => "Book not found."
  | .noCopies => "No copies available."
  | .hasActiveLoans => "Book has active loans — return all copies first."
  | .duplicateCategory => "Category already exists."
  | .duplicateName => "Category name already exists."
  | .categoryNotFound => "Category not found."
  | .categoryInUse => "Category is used by one or more books."

namespace DBLib

open DB

/-- `getBook(id)`: `SELECT * FROM books WHERE id = ?` then `[0] || null`. -/
def getBook (s : DBState) (id : Nat) : Option Book :=
  (s.books.filter (fun b => b.id == id)).head?

/-- Result record of `addBook`. -/
structure AddBookResult where
  id : Nat
  merged : Bool
  copies : Int
deriving Repr, DecidableEq

/-- Arguments of `addBook` (destructured object with defaults in the source). -/
structure AddBookArgs where
  title : String
  author : String
  isbn : String := ""
  category : String
  copies : Int := 1
deriving Repr, DecidableEq

/-- The duplicate-detection query of `addBook`:
`SELECT * FROM books WHERE LOWER(TRIM(title)) = LOWER(TRIM(?)) AND
LOWER(TRIM(isbn)) = LOWER(TRIM(?))`, then `[0]`. -/
def findExisting (s : DBState) (title isbn : String) : Option Book :=
  (s.books.filter (fun b =>
    normKey b.title == normKey title && normKey b.isbn == normKey isbn)).head?

/-- `addBook({title, author, isbn, category, copies})`: merge into an
existing book with equal normalised (title, isbn) by incrementing its
copies, else insert a new row.  Each branch is a single `DB.run`. -/
def addBook (e : Engine) (a : AddBookArgs) : Engine × Except LibError AddBookResult :=
  match liveState e with
  | none => (e, .error .engineUnavailable)
  | some s =>
    match findExisting s a.title a.isbn with
    | some existing =>
        let (e', _) := DB.run e (.addCopies a.copies existing.id)
        (e', .ok { id := existing.id, merged := true, copies := existing.copies + a.copies })
    | none =>
        let (e', _) := DB.run e
          (.insertBook a.title a.author a.isbn a.category a.copies)
        (e', .ok { id := s.nextBookId, merged := false, copies := a.copies })

/-- Fold a sequence of `addBook` calls (the result records are discarded). -/
def addBookSeq (e : Engine) (calls : List AddBookArgs) : Engine :=
  calls.foldl (fun acc a => (addBook acc a).1) e

/-- `deleteBook(id)`: guard on open borrows referencing the book
(`SELECT id FROM borrows WHERE book_id = ? AND return_date IS NULL LIMIT 1`),
then `DELETE FROM books WHERE id = ?`. -/
def deleteBook (e : Engine) (id : Nat) : Engine × Option LibError :=
  match liveState e with
  | none => (e, some .engineUnavailable)
  | some s =>
    let active := (s.borrows.filter (fun b =>
      b.book_id == id && b.return_date == none)).take 1
    if !active.isEmpty then (e, some .hasActiveLoans)
    else ((DB.run e (.deleteBookRow id)).1, none)

/-- `updateCategory(id, newName)`: duplicate-name check excluding the row
being renamed, look up the old name, then one transaction updating the
Category row and every Book whose normalised category matches the old name. -/
def updateCategory (e : Engine) (id : Nat) (newName : String) : Engine × Option LibError :=
  match liveState e with
  | none => (e, some .engineUnavailable)
  | some s =>
    let dup := (s.categories.filter (fun c =>
      normKey c.name == normKey newName && !(c.id == id))).head?
    match dup with
    | some _ => (e, some .duplicateName)
    | none =>
      match (s.categories.filter (fun c => c.id == id)).head? with
      | none => (e, some .categoryNotFound)
      | some old =>
        let (e', failed) := DB.transaction e
          [.updateCategoryName newName id,
           .updateBooksCategory newName old.name] false
        (e', if failed then some .engineUnavailable else none)

/-- `recordBorrow({bookId, borrower, dateOut, dueDate})`: not-found and
no-copies guards, then one transaction inserting the open Borrow row and
decrementing the Book's copies. -/
def recordBorrow (e : Engine) (bookId : Nat) (borrower dateOut dueDate : String) :
    Engine × Option LibError :=
  match liveState e with
  | none => (e, some .engineUnavailable)
  | some s =>
    match getBook s bookId with
    | none => (e, some .notFound)
    | some book =>
      if book.copies < 1 then (e, some .noCopies)
      else
        let (e', failed) := DB.transaction e
          [.insertBorrow bookId borrower dateOut dueDate,
           .decCopies bookId] false
        (e', if failed then some .engineUnavailable else none)

/-- `recordReturn({borrowId, bookId, returnDate})`: one transaction setting
the Borrow's return_date and incrementing the Book's copies — with no check
that the loan is still open. -/
def recordReturn (e : Engine) (borrowId bookId : Nat) (returnDate : String) :
    Engine × Option LibError :=
  match liveState e with
  | none => (e, some .engineUnavailable)
  | some s =>
    let _ := s
    let (e', failed) := DB.transaction e
      [.setReturnDate returnDate borrowId,
       .incCopies bookId] false
    (e', if failed then some .engineUnavailable else none)

/-- Row shape produced by `getAllBorrows` (columns of its SELECT). -/
structure BorrowListRow where
  id : Nat
  borrower : String
  date_out : String
  due_date : String
  return_date : Option String
  book_title : String
  book_id : Nat
deriving Repr, DecidableEq

/-- `getAllBorrows(search)`: inner join of borrows with books on
`bk.id = b.book_id`, filtered by `b.borrower LIKE ? OR bk.title LIKE ? OR
bk.isbn LIKE ?` with pattern `'%search%'`.  Rows are produced in join order;
the final `ORDER BY b.date_out DESC` permutes them but no verified property
here depends on row order, so the sort is left out of the model. -/
def getAllBorrows (s : DBState) (search : String) : List BorrowListRow :=
  s.borrows.flatMap (fun b =>
    (s.books.filter (fun bk => bk.id == b.book_id)).filterMap (fun bk =>
      if likeContains b.borrower search || likeContains bk.title search
          || likeContains bk.isbn search
      then some { id := b.id, borrower := b.borrower, date_out := b.date_out,
                  due_date := b.due_date, return_date := b.return_date,
                  book_title := bk.title, book_id := bk.id }
      else none))

/-- Row shape of the `topBooks` aggregate in `getStats`. -/
structure TopBookRow where
  title : String
  author : String
  borrow_count : Nat
deriving Repr, DecidableEq

/-- The grouped rows of the `topBooks` query before ordering/limiting:
`SELECT bk.title, bk.author, COUNT(b.id) FROM borrows b JOIN books bk ON
bk.id = b.book_id GROUP BY b.book_id`.  Under the primary-key uniqueness of
`books.id`, each group of the join is exactly one existing book together
with the borrows referencing it, and a book with no borrows yields no group. -/
def topBooksBase (s : DBState) : List TopBookRow :=
  s.books.filterMap (fun bk =>
    let c := (s.borrows.filter (fun b => b.book_id == bk.id)).length
    if c == 0 then none
    else some { title := bk.title, author := bk.author, borrow_count := c })

/-- Insertion step for `ORDER BY borrow_count DESC` (ties keep group order;
SQL leaves tie order unspecified). -/
def insertByCountDesc (r : TopBookRow) : List TopBookRow → List TopBookRow
  | [] => [r]
  | x :: xs =>
      if x.borrow_count < r.borrow_count then r :: x :: xs
      else x :: insertByCountDesc r xs

/-- Sort descending by `borrow_count`. -/
def sortByCountDesc (l : List TopBookRow) : List TopBookRow :=
  l.foldr insertByCountDesc []

/-- Row shape of the `dueToday` query in `getStats`. -/
structure DueTodayRow where
  borrower : String
  title : String
deriving Repr, DecidableEq

/-- The `dueToday` query: join with books, open loans with
`due_date = today`. -/
def dueToday (s : DBState) (today : String) : List DueTodayRow :=
  s.borrows.flatMap (fun b =>
    (s.books.filter (fun bk => bk.id == b.book_id)).filterMap (fun bk =>
      if b.return_date == none && b.due_date == today
      then some { borrower := b.borrower, title := bk.title }
      else none))

/-- The record returned by `getStats()`. -/
structure Stats where
  totalCopies : Int
  totalTitles : Nat
  activeLoans : Nat
  returnedLoans : Nat
  overdueCount : Nat
  topBooks : List TopBookRow
  dueToday : List DueTodayRow
deriving Repr, DecidableEq

/-- `getStats()`, with the current date (`DB.today()`) passed explicitly.
The scalar counts are computed on `borrows` alone; `topBooks` and `dueToday`
join with `books`.  `due_date < today` is SQLite text comparison, which on
ISO dates coincides with lexicographic string order. -/
def getStats (s : DBState) (today : String) : Stats :=
  { totalCopies := (s.books.map (fun b => b.copies)).sum,
    totalTitles := s.books.length,
    activeLoans := (s.borrows.filter (fun b => b.return_date == none)).length,
    returnedLoans := (s.borrows.filter (fun b => !(b.return_date == none))).length,
    overdueCount := (s.borrows.filter (fun b =>
      b.return_date == none && decide (b.due_date < today))).length,
    topBooks := (sortByCountDesc (topBooksBase s)).take 5,
    dueToday := dueToday s today }

end DBLib

/-- Sample book fixture used by concrete witnesses. -/
def sampleBook : Book :=
  { id := 1, title := "Dune", author := "Herbert", isbn := "123",
    category := "SciFi", copies := 2 }

/-- A closed loan on `sampleBook` (return_date already set). -/
def sampleClosedBorrow : Borrow :=
  { id := 1, book_id := 1, borrower := "Ada", date_out := "2025-01-01",
    due_date := "2025-01-15", return_date := some "2025-01-10" }

/-- A book with no available copies, for the no-copies branch. -/
def sampleZeroBook : Book :=
  { id := 2, title := "Emma", author := "Austen", isbn := "",
    category := "Classic", copies := 0 }

/-- Sample database fixture used by concrete witnesses. -/
def sampleState : DBState :=
  { books := [sampleBook, sampleZeroBook],
    categories := [{ id := 1, name := "SciFi" }],
    borrows := [sampleClosedBorrow], settings := [],
    nextBookId := 3, nextCategoryId := 2, nextBorrowId := 2 }

/-- Sample engine fixture: live instance loaded and in sync with storage. -/
def sampleEngine : DB.Engine :=
  { live := .openDB sampleState, persisted := some sampleState, dirty := false }

/-- C1 counterexample: restoring a malformed blob over a live engine raises,
but — contrary to the claim — the previous live database instance does not
remain valid and unchanged: `_db.close()` runs before `new
_SQL.Database(uint8)`, so after the failed parse the engine's handle is no
longer the prior open instance. -/
theorem c1_restore_counterexample :
    (DB.restoreDB sampleEngine Blob.malformed).2 = true ∧
    ¬ ((DB.restoreDB sampleEngine Blob.malformed).1.live = sampleEngine.live) := by
  decide

/-- C1 amended: when parsing the blob fails, `restoreDB` raises, but the
prior live instance has already been released (closed) with no replacement
installed — the live handle is left pointing at the closed instance; only
the persisted blob is untouched (replace-then-fail, not replace-or-fail). -/
theorem c1_restore_parse_failure (e : DB.Engine) (s : DBState) (file : Blob)
    (hlive : e.live = .openDB s) (hparse : parseBlob file = none) :
    (DB.restoreDB e file).2 = true ∧
    (DB.restoreDB e file).1.live = .closedDB ∧
    (DB.restoreDB e file).1.persisted = e.persisted := by
  simp [DB.restoreDB, hparse, hlive]

/-- Witness for `c1_restore_parse_failure` at the sample engine and a
malformed blob. -/
theorem c1_restore_parse_failure_witness :
    (DB.restoreDB sampleEngine Blob.malformed).2 = true ∧
    (DB.restoreDB sampleEngine Blob.malformed).1.live = .closedDB ∧
    (DB.restoreDB sampleEngine Blob.malformed).1.persisted = sampleEngine.persisted :=
  c1_restore_parse_failure sampleEngine sampleState Blob.malformed rfl rfl

/-- C2: a transaction whose body raises after zero or more of its statements
have executed rolls back (`ROLLBACK` restores the pre-`BEGIN` instance),
re-raises the error, and leaves both the live in-memory database and the
persisted blob in the Storage Adapter exactly as they were before the
transaction began; the dirty flag is untouched as well. -/
theorem c2_transaction_rollback (e : DB.Engine) (s : DBState) (body : List Stmt)
    (hlive : e.live = .openDB s) :
    (DB.transaction e body true).2 = true ∧
    (DB.transaction e body true).1.live = .openDB s ∧
    (DB.transaction e body true).1.persisted = e.persisted ∧
    (DB.transaction e body true).1.dirty = e.dirty := by
  simp [DB.transaction, hlive]

/-- Witness for `c2_transaction_rollback`: a failing body that had already
executed an insert and an update against the sample engine. -/
theorem c2_transaction_rollback_witness :
    (DB.transaction sampleEngine
      [Stmt.insertBorrow 1 "Bob" "2025-02-01" "2025-02-15", Stmt.decCopies 1] true).2 = true ∧
    (DB.transaction sampleEngine
      [Stmt.insertBorrow 1 "Bob" "2025-02-01" "2025-02-15", Stmt.decCopies 1] true).1.live
      = .openDB sampleState ∧
    (DB.transaction sampleEngine
      [Stmt.insertBorrow 1 "Bob" "2025-02-01" "2025-02-15", Stmt.decCopies 1] true).1.persisted
      = sampleEngine.persisted ∧
    (DB.transaction sampleEngine
      [Stmt.insertBorrow 1 "Bob" "2025-02-01" "2025-02-15", Stmt.decCopies 1] true).1.dirty
      = sampleEngine.dirty :=
  c2_transaction_rollback sampleEngine sampleState
    [Stmt.insertBorrow 1 "Bob" "2025-02-01" "2025-02-15", Stmt.decCopies 1] rfl

/-- C8: `recordReturn(borrowId, bookId, returnDate)` never fails on an open
engine and never checks that the loan is still open: in one committed
transaction the Borrow row with id `borrowId` gets `return_date` set
(overwritten, even if already non-null) to `returnDate`, the Book with id
`bookId` has its copies incremented by exactly 1, every other row is
unchanged, and the persisted blob equals the new live instance (both
effects are persisted atomically). -/
theorem c8_recordReturn (e : DB.Engine) (s : DBState) (borrowId bookId : Nat)
    (d : String) (hlive : e.live = .openDB s) :
    (DBLib.recordReturn e borrowId bookId d).2 = none ∧
    (DBLib.recordReturn e borrowId bookId d).1.live = .openDB
      { s with
        borrows := s.borrows.map (fun b =>
          if b.id == borrowId then { b with return_date := some d } else b),
        books := s.books.map (fun b =>
          if b.id == bookId then { b with copies := b.copies + 1 } else b) } ∧
    (DBLib.recordReturn e borrowId bookId d).1.persisted = some
      { s with
        borrows := s.borrows.map (fun b =>
          if b.id == borrowId then { b with return_date := some d } else b),
        books := s.books.map (fun b =>
          if b.id == bookId then { b with copies := b.copies + 1 } else b) } := by
  simp [DBLib.recordReturn, DB.liveState, DB.transaction, DB.persist,
    applyStmts, applyStmt, hlive]

/-- Witness for `c8_recordReturn`: re-returning the already-closed sample
loan still succeeds, overwrites its return_date and increments copies. -/
theorem c8_recordReturn_witness :
    (DBLib.recordReturn sampleEngine 1 1 "2025-02-01").2 = none ∧
    (DBLib.recordReturn sampleEngine 1 1 "2025-02-01").1.live = .openDB
      { sampleState with
        borrows := sampleState.borrows.map (fun b =>
          if b.id == 1 then { b with return_date := some "2025-02-01" } else b),
        books := sampleState.books.map (fun b =>
          if b.id == 1 then { b with copies := b.copies + 1 } else b) } ∧
    (DBLib.recordReturn sampleEngine 1 1 "2025-02-01").1.persisted = some
      { sampleState with
        borrows := sampleState.borrows.map (fun b =>
          if b.id == 1 then { b with return_date := some "2025-02-01" } else b),
        books := sampleState.books.map (fun b =>
          if b.id == 1 then { b with copies := b.copies + 1 } else b) } :=
  c8_recordReturn sampleEngine sampleState 1 1 "2025-02-01" rfl

/-- C3: `recordBorrow(bookId, borrower, dateOut, dueDate)` — if no Book row
has id `bookId` it fails with the not-found error and changes nothing; if
that Book's copies < 1 it fails with the no-copies error and changes
nothing; otherwise, in one committed transaction, exactly one new Borrow
row is appended with `return_date` unset and the Book's copies is
decremented by exactly 1, and the persisted blob equals the new live
instance (both effects committed together; in the failure branches
neither). -/
theorem c3_recordBorrow (e : DB.Engine) (s : DBState) (bookId : Nat)
    (borrower dateOut dueDate : String) (hlive : e.live = .openDB s) :
    (DBLib.getBook s bookId = none →
      DBLib.recordBorrow e bookId borrower dateOut dueDate
        = (e, some .notFound)) ∧
    ((DBLib.getBook s bookId).any (fun b => decide (b.copies < 1)) = true →
      DBLib.recordBorrow e bookId borrower dateOut dueDate
        = (e, some .noCopies)) ∧
    ((DBLib.getBook s bookId).any (fun b => decide (1 ≤ b.copies)) = true →
      (DBLib.recordBorrow e bookId borrower dateOut dueDate).2 = none ∧
      (DBLib.recordBorrow e bookId borrower dateOut dueDate).1.live = .openDB
        { s with
          borrows := s.borrows ++
            [{ id := s.nextBorrowId, book_id := bookId, borrower := borrower,
               date_out := dateOut, due_date := dueDate, return_date := none }],
          nextBorrowId := s.nextBorrowId + 1,
          books := s.books.map (fun b =>
            if b.id == bookId then { b with copies := b.copies - 1 } else b) } ∧
      (DBLib.recordBorrow e bookId borrower dateOut dueDate).1.persisted = some
        { s with
          borrows := s.borrows ++
            [{ id := s.nextBorrowId, book_id := bookId, borrower := borrower,
               date_out := dateOut, due_date := dueDate, return_date := none }],
          nextBorrowId := s.nextBorrowId + 1,
          books := s.books.map (fun b =>
            if b.id == bookId then { b with copies := b.copies - 1 } else b) }) := by
  refine ⟨fun h => ?_, fun h => ?_, fun h => ?_⟩
  · simp [DBLib.recordBorrow, DB.liveState, hlive, h]
  · cases hgb : DBLib.getBook s bookId with
    | none => rw [hgb] at h; simp [Option.any] at h
    | some book =>
        rw [hgb] at h
        simp only [Option.any, decide_eq_true_eq] at h
        simp [DBLib.recordBorrow, DB.liveState, hlive, hgb, h]
  · cases hgb : DBLib.getBook s bookId with
    | none => rw [hgb] at h; simp [Option.any] at h
    | some book =>
        rw [hgb] at h
        simp only [Option.any, decide_eq_true_eq] at h
        have hnot : ¬ (book.copies < 1) := by omega
        simp [DBLib.recordBorrow, DB.liveState, DB.transaction, DB.persist,
          applyStmts, applyStmt, hlive, hgb, hnot]

/-- Witness for `c3_recordBorrow`: against the sample engine, borrowing a
missing book id fails not-found with no change, borrowing the zero-copies
book fails no-copies with no change, and borrowing the available book
appends one open Borrow row, decrements copies and persists both. -/
theorem c3_recordBorrow_witness :
    (DBLib.recordBorrow sampleEngine 99 "Bob" "2025-03-01" "2025-03-15"
      = (sampleEngine, some .notFound)) ∧
    (DBLib.recordBorrow sampleEngine 2 "Bob" "2025-03-01" "2025-03-15"
      = (sampleEngine, some .noCopies)) ∧
    ((DBLib.recordBorrow sampleEngine 1 "Bob" "2025-03-01" "2025-03-15").2 = none ∧
      (DBLib.recordBorrow sampleEngine 1 "Bob" "2025-03-01" "2025-03-15").1.live = .openDB
        { sampleState with
          borrows := sampleState.borrows ++
            [{ id := sampleState.nextBorrowId, book_id := 1, borrower := "Bob",
               date_out := "2025-03-01", due_date := "2025-03-15", return_date := none }],
          nextBorrowId := sampleState.nextBorrowId + 1,
          books := sampleState.books.map (fun b =>
            if b.id == 1 then { b with copies := b.copies - 1 } else b) } ∧
      (DBLib.recordBorrow sampleEngine 1 "Bob" "2025-03-01" "2025-03-15").1.persisted = some
        { sampleState with
          borrows := sampleState.borrows ++
            [{ id := sampleState.nextBorrowId, book_id := 1, borrower := "Bob",
               date_out := "2025-03-01", due_date := "2025-03-15", return_date := none }],
          nextBorrowId := sampleState.nextBorrowId + 1,
          books := sampleState.books.map (fun b =>
            if b.id == 1 then { b with copies := b.copies - 1 } else b) }) :=
  ⟨(c3_recordBorrow sampleEngine sampleState 99 "Bob" "2025-03-01" "2025-03-15" rfl).1
      (by decide),
   (c3_recordBorrow sampleEngine sampleState 2 "Bob" "2025-03-01" "2025-03-15" rfl).2.1
      (by decide),
   (c3_recordBorrow sampleEngine sampleState 1 "Bob" "2025-03-01" "2025-03-15" rfl).2.2
      (by decide)⟩

namespace DBLib

/-- `getBook` against the engine's live instance (`none` when the engine has
no open instance). -/
def liveGetBook (e : DB.Engine) (id : Nat) : Option Book :=
  match DB.liveState e with
  | some s => getBook s id
  | none => none

end DBLib

/-- The per-row effect of `recordBorrow`'s copies decrement followed by
`recordReturn`'s copies increment on the same book id is the identity. -/
theorem dec_inc_copies_cancel (bid : Nat) (b : Book) :
    (fun x : Book => if x.id = bid then { x with copies := x.copies + 1 } else x)
      ((fun x : Book => if x.id = bid then { x with copies := x.copies - 1 } else x) b)
      = b := by
  by_cases h : b.id = bid
  · have hc : b.copies - 1 + 1 = b.copies := by omega
    simp [h, hc]
    rw [← h]
  · simp [h]

/-- C5: a successful `recordBorrow` on a Book followed by a `recordReturn`
passing the same bookId restores that Book's row — in particular its
copies — to its pre-borrow value: the decrement and increment cancel. -/
theorem c5_borrow_return_roundtrip (e : DB.Engine) (s : DBState)
    (bid borrowId : Nat) (borrower dateOut dueDate d : String)
    (hlive : e.live = .openDB s)
    (hok : (DBLib.getBook s bid).any (fun b => decide (1 ≤ b.copies)) = true) :
    (DBLib.recordBorrow e bid borrower dateOut dueDate).2 = none ∧
    (DBLib.recordReturn (DBLib.recordBorrow e bid borrower dateOut dueDate).1
      borrowId bid d).2 = none ∧
    DBLib.liveGetBook
      (DBLib.recordReturn (DBLib.recordBorrow e bid borrower dateOut dueDate).1
        borrowId bid d).1 bid
      = DBLib.getBook s bid := by
  cases hgb : DBLib.getBook s bid with
  | none => rw [hgb] at hok; simp [Option.any] at hok
  | some book =>
      rw [hgb] at hok
      simp only [Option.any, decide_eq_true_eq] at hok
      have hnot : ¬ (book.copies < 1) := by omega
      simp only [DBLib.getBook] at hgb
      simp at hgb
      refine ⟨?_, ?_, ?_⟩ <;>
        simp [DBLib.recordBorrow, DBLib.recordReturn, DBLib.liveGetBook,
          DBLib.getBook, DB.liveState, DB.transaction, DB.persist,
          applyStmts, applyStmt, hlive, hgb, hnot,
          Function.comp_def, dec_inc_copies_cancel]

/-- Witness for `c5_borrow_return_roundtrip`: borrow the sample book (2
copies) and return the newly created loan (id 2); the book row afterwards
equals its pre-borrow row. -/
theorem c5_borrow_return_roundtrip_witness :
    (DBLib.recordBorrow sampleEngine 1 "Ada" "2025-01-01" "2025-01-15").2 = none ∧
    (DBLib.recordReturn
      (DBLib.recordBorrow sampleEngine 1 "Ada" "2025-01-01" "2025-01-15").1
      2 1 "2025-01-10").2 = none ∧
    DBLib.liveGetBook
      (DBLib.recordReturn
        (DBLib.recordBorrow sampleEngine 1 "Ada" "2025-01-01" "2025-01-15").1
        2 1 "2025-01-10").1 1
      = DBLib.getBook sampleState 1 :=
  c5_borrow_return_roundtrip sampleEngine sampleState 1 2
    "Ada" "2025-01-01" "2025-01-15" "2025-01-10" rfl (by decide)

/-- `LIMIT 1` on a query result is empty iff the full result is. -/
theorem isEmpty_take_one {α : Type} (l : List α) : (l.take 1).isEmpty = l.isEmpty := by
  cases l <;> rfl

/-- C7: `deleteBook(id)` — if any Borrow row with `book_id = id` has
`return_date` unset, it fails with the active-loans error and the engine
(book rows and borrow rows included) is unchanged; otherwise it deletes the
Book row unconditionally, leaves the whole borrows table (including closed
rows referencing `id`) untouched, and persists the new state. -/
theorem c7_deleteBook (e : DB.Engine) (s : DBState) (id : Nat)
    (hlive : e.live = .openDB s) :
    ((s.borrows.filter (fun b => b.book_id == id && b.return_date == none)).isEmpty
        = false →
      DBLib.deleteBook e id = (e, some .hasActiveLoans)) ∧
    ((s.borrows.filter (fun b => b.book_id == id && b.return_date == none)).isEmpty
        = true →
      (DBLib.deleteBook e id).2 = none ∧
      (DBLib.deleteBook e id).1.live = .openDB
        { s with books := s.books.filter (fun b => !(b.id == id)) } ∧
      (DBLib.deleteBook e id).1.persisted = some
        { s with books := s.books.filter (fun b => !(b.id == id)) }) := by
  constructor
  · intro h
    simp [DBLib.deleteBook, DB.liveState, DB.run, DB.persist, applyStmt,
      hlive, isEmpty_take_one, h]
  · intro h
    simp [DBLib.deleteBook, DB.liveState, DB.run, DB.persist, applyStmt,
      hlive, isEmpty_take_one, h]

/-- An open loan on `sampleBook` (return_date unset). -/
def sampleOpenBorrow : Borrow :=
  { id := 2, book_id := 1, borrower := "Bob", date_out := "2025-02-01",
    due_date := "2025-02-15", return_date := none }

/-- Sample database with both a closed and an open loan on book 1. -/
def sampleStateOpen : DBState :=
  { sampleState with
    borrows := [sampleClosedBorrow, sampleOpenBorrow], nextBorrowId := 3 }

/-- Engine fixture for `sampleStateOpen`. -/
def sampleEngineOpen : DB.Engine :=
  { live := .openDB sampleStateOpen, persisted := some sampleStateOpen, dirty := false }

/-- Witness for `c7_deleteBook`: deleting book 1 fails with the active-loans
error while the open loan exists, and succeeds (retaining the closed borrow
row) when only the closed loan references it. -/
theorem c7_deleteBook_witness :
    (DBLib.deleteBook sampleEngineOpen 1 = (sampleEngineOpen, some .hasActiveLoans)) ∧
    ((DBLib.deleteBook sampleEngine 1).2 = none ∧
      (DBLib.deleteBook sampleEngine 1).1.live = .openDB
        { sampleState with
          books := sampleState.books.filter (fun b => !(b.id == 1)) } ∧
      (DBLib.deleteBook sampleEngine 1).1.persisted = some
        { sampleState with
          books := sampleState.books.filter (fun b => !(b.id == 1)) }) :=
  ⟨(c7_deleteBook sampleEngineOpen sampleStateOpen 1 rfl).1 (by decide),
   (c7_deleteBook sampleEngine sampleState 1 rfl).2 (by decide)⟩

/-- C6: a successful `updateCategory(id, newName)` (duplicate check clear,
category found) commits, in one transaction, both the rename of the
Category row with id `id` to `newName` and the rewrite of exactly those
Books whose category matches the old name under `LOWER(TRIM(·))`
normalisation; every other Book row is unchanged, and the persisted blob
equals the new live instance. -/
theorem c6_updateCategory (e : DB.Engine) (s : DBState) (id : Nat)
    (newName : String) (old : Category)
    (hlive : e.live = .openDB s)
    (hdup : s.categories.filter (fun c =>
      normKey c.name == normKey newName && !(c.id == id)) = [])
    (hold : (s.categories.filter (fun c => c.id == id)).head? = some old) :
    (DBLib.updateCategory e id newName).2 = none ∧
    (DBLib.updateCategory e id newName).1.live = .openDB
      { s with
        categories := s.categories.map (fun c =>
          if c.id == id then { c with name := newName } else c),
        books := s.books.map (fun b =>
          if normKey b.category == normKey old.name
          then { b with category := newName } else b) } ∧
    (DBLib.updateCategory e id newName).1.persisted = some
      { s with
        categories := s.categories.map (fun c =>
          if c.id == id then { c with name := newName } else c),
        books := s.books.map (fun b =>
          if normKey b.category == normKey old.name
          then { b with category := newName } else b) } := by
  simp [DBLib.updateCategory, DB.liveState, DB.transaction, DB.persist,
    applyStmts, applyStmt, hlive, hdup, hold]

/-- C10: renaming a category to a name equal to its own current name under
`LOWER(TRIM(·))` normalisation succeeds rather than failing with the
duplicate-name error, because the duplicate check excludes the row being
renamed (`AND id != ?`); normalised uniqueness of the other category names
is assumed, as `addCategory`/`updateCategory` enforce it on creation. -/
theorem c10_updateCategory_self_rename (e : DB.Engine) (s : DBState)
    (id : Nat) (newName : String) (cat : Category)
    (hlive : e.live = .openDB s)
    (hcat : (s.categories.filter (fun c => c.id == id)).head? = some cat)
    (hself : normKey newName = normKey cat.name)
    (huniq : ∀ c ∈ s.categories, c.id ≠ id → normKey c.name ≠ normKey cat.name) :
    (DBLib.updateCategory e id newName).2 = none := by
  have hdup : s.categories.filter (fun c =>
      normKey c.name == normKey newName && !(c.id == id)) = [] := by
    rw [List.filter_eq_nil_iff]
    intro c hc
    by_cases hcid : c.id = id
    · simp [hcid]
    · have hne : normKey c.name ≠ normKey newName := by
        rw [hself]; exact huniq c hc hcid
      simp [hcid, hne]
  simp [DBLib.updateCategory, DB.liveState, DB.transaction, DB.persist,
    applyStmts, applyStmt, hlive, hdup, hcat]

/-- Witness for `c6_updateCategory`: renaming category 1 ("SciFi") to
"Science Fiction" rewrites book 1 (category "SciFi") and leaves book 2
(category "Classic") unchanged, atomically. -/
theorem c6_updateCategory_witness :
    (DBLib.updateCategory sampleEngine 1 "Science Fiction").2 = none ∧
    (DBLib.updateCategory sampleEngine 1 "Science Fiction").1.live = .openDB
      { sampleState with
        categories := sampleState.categories.map (fun c =>
          if c.id == 1 then { c with name := "Science Fiction" } else c),
        books := sampleState.books.map (fun b =>
          if normKey b.category == normKey (Category.mk 1 "SciFi").name
          then { b with category := "Science Fiction" } else b) } ∧
    (DBLib.updateCategory sampleEngine 1 "Science Fiction").1.persisted = some
      { sampleState with
        categories := sampleState.categories.map (fun c =>
          if c.id == 1 then { c with name := "Science Fiction" } else c),
        books := sampleState.books.map (fun b =>
          if normKey b.category == normKey (Category.mk 1 "SciFi").name
          then { b with category := "Science Fiction" } else b) } :=
  c6_updateCategory sampleEngine sampleState 1 "Science Fiction"
    (Category.mk 1 "SciFi") rfl (by decide) (by decide)

/-- Witness for `c10_updateCategory_self_rename`: renaming category 1
("SciFi") to " SCIFI " — equal to its own name after trim and case fold —
succeeds. -/
theorem c10_updateCategory_self_rename_witness :
    (DBLib.updateCategory sampleEngine 1 " SCIFI ").2 = none :=
  c10_updateCategory_self_rename sampleEngine sampleState 1 " SCIFI "
    (Category.mk 1 "SciFi") rfl (by decide) (by decide) (by decide)

/-- The normalised (title, isbn) key comparison of `addBook`'s duplicate
query, as a predicate on stored rows for a fixed normalised key. -/
def matchesKey (nt ni : String) : Book → Bool :=
  fun b => normKey b.title == nt && normKey b.isbn == ni

/-- The live instance's books (empty when no open instance). -/
def liveBooks (e : DB.Engine) : List Book :=
  match DB.liveState e with
  | some s => s.books
  | none => []

/-- `addBook` on a state with no row matching the call's normalised
(title, isbn): inserts a new row and reports a create outcome. -/
theorem addBook_create (e : DB.Engine) (s : DBState) (a : DBLib.AddBookArgs)
    (nt ni : String) (hlive : e.live = .openDB s)
    (hk1 : normKey a.title = nt) (hk2 : normKey a.isbn = ni)
    (hnil : s.books.filter (matchesKey nt ni) = []) :
    (DBLib.addBook e a).1.live = .openDB
      { s with
        books := s.books ++
          [{ id := s.nextBookId, title := a.title, author := a.author,
             isbn := a.isbn, category := a.category, copies := a.copies }],
        nextBookId := s.nextBookId + 1 } ∧
    (DBLib.addBook e a).2 = .ok { id := s.nextBookId, merged := false, copies := a.copies } := by
  have hfind : DBLib.findExisting s a.title a.isbn = none := by
    simp only [DBLib.findExisting, hk1, hk2]
    have hnil' : s.books.filter
        (fun b => normKey b.title == nt && normKey b.isbn == ni) = [] := hnil
    rw [hnil']
    rfl
  constructor <;>
    simp [DBLib.addBook, DB.liveState, DB.run, DB.persist, applyStmt, hlive, hfind]

/-- `addBook` on a state whose rows matching the call's normalised
(title, isbn) are exactly `[b]`: increments that row's copies and reports a
merge outcome; the matching rows afterwards are exactly the updated `b`. -/
theorem addBook_merge (e : DB.Engine) (s : DBState) (a : DBLib.AddBookArgs)
    (b : Book) (nt ni : String) (hlive : e.live = .openDB s)
    (hk1 : normKey a.title = nt) (hk2 : normKey a.isbn = ni)
    (hone : s.books.filter (matchesKey nt ni) = [b]) :
    (DBLib.addBook e a).1.live = .openDB
      { s with
        books := s.books.map (fun x =>
          if x.id == b.id then { x with copies := x.copies + a.copies } else x) } ∧
    (DBLib.addBook e a).2 = .ok { id := b.id, merged := true, copies := b.copies + a.copies } ∧
    (s.books.map (fun x =>
        if x.id == b.id then { x with copies := x.copies + a.copies } else x)).filter
      (matchesKey nt ni) = [{ b with copies := b.copies + a.copies }] := by
  have hfind : DBLib.findExisting s a.title a.isbn = some b := by
    simp only [DBLib.findExisting, hk1, hk2]
    have hone' : s.books.filter
        (fun b => normKey b.title == nt && normKey b.isbn == ni) = [b] := hone
    rw [hone']
    rfl
  refine ⟨?_, ?_, ?_⟩
  · simp [DBLib.addBook, DB.liveState, DB.run, DB.persist, applyStmt, hlive, hfind]
  · simp [DBLib.addBook, DB.liveState, DB.run, DB.persist, applyStmt, hlive, hfind]
  · rw [List.filter_map]
    have hcong : s.books.filter ((matchesKey nt ni) ∘ (fun x =>
        if x.id == b.id then { x with copies := x.copies + a.copies } else x))
        = s.books.filter (matchesKey nt ni) := by
      apply List.filter_congr
      intro x _
      by_cases h : x.id == b.id <;> simp [matchesKey, Function.comp, h]
    rw [hcong, hone]
    simp

/-- Folding further `addBook` calls whose normalised key matches the single
existing matching row keeps exactly one matching row and accumulates the
requested copies onto it (each such call takes the merge branch). -/
theorem addBookSeq_merge_fold (nt ni : String) (calls : List DBLib.AddBookArgs) :
    ∀ (e : DB.Engine) (s : DBState) (b : Book),
      e.live = .openDB s →
      (∀ a ∈ calls, normKey a.title = nt ∧ normKey a.isbn = ni) →
      s.books.filter (matchesKey nt ni) = [b] →
      ∃ s' b', (DBLib.addBookSeq e calls).live = .openDB s' ∧
        s'.books.filter (matchesKey nt ni) = [b'] ∧
        b'.copies = b.copies + (calls.map (fun a => a.copies)).sum := by
  induction calls with
  | nil =>
      intro e s b hlive hkey hone
      exact ⟨s, b, hlive, hone, by simp⟩
  | cons a cs ih =>
      intro e s b hlive hkey hone
      obtain ⟨hk1, hk2⟩ := hkey a (by simp)
      have hm := addBook_merge e s a b nt ni hlive hk1 hk2 hone
      obtain ⟨s', b', h1, h2, h3⟩ :=
        ih (DBLib.addBook e a).1 _ { b with copies := b.copies + a.copies }
          hm.1 (fun x hx => hkey x (List.mem_cons_of_mem a hx)) hm.2.2
      refine ⟨s', b', h1, h2, ?_⟩
      rw [h3]
      simp
      omega

/-- C4: for a nonempty sequence of `addBook` calls all sharing the same
normalised (title, isbn) key, starting from a state with no row matching
that key: afterwards exactly one Book row matches the key and its copies
(the sum over the matching rows) equals the sum of the requested copies
across the calls; the first call reports a create outcome (each later call
takes the merge branch of `addBook_merge`, reporting a merge outcome). -/
theorem c4_addBook_duplicate_merge (e : DB.Engine) (s : DBState)
    (nt ni : String) (c : DBLib.AddBookArgs) (cs : List DBLib.AddBookArgs)
    (hlive : e.live = .openDB s)
    (hkey : ∀ a ∈ (c :: cs), normKey a.title = nt ∧ normKey a.isbn = ni)
    (hnil : s.books.filter (matchesKey nt ni) = []) :
    ((liveBooks (DBLib.addBookSeq e (c :: cs))).filter (matchesKey nt ni)).length = 1 ∧
    (((liveBooks (DBLib.addBookSeq e (c :: cs))).filter (matchesKey nt ni)).map
      (fun b => b.copies)).sum = ((c :: cs).map (fun a => a.copies)).sum ∧
    (DBLib.addBook e c).2
      = .ok { id := s.nextBookId, merged := false, copies := c.copies } := by
  obtain ⟨hk1, hk2⟩ := hkey c (by simp)
  have hc := addBook_create e s c nt ni hlive hk1 hk2 hnil
  have hnb : matchesKey nt ni
      { id := s.nextBookId, title := c.title, author := c.author,
        isbn := c.isbn, category := c.category, copies := c.copies } = true := by
    simp [matchesKey, hk1, hk2]
  have hf1 : (s.books ++
      [({ id := s.nextBookId, title := c.title, author := c.author,
          isbn := c.isbn, category := c.category, copies := c.copies } : Book)]).filter
      (matchesKey nt ni)
      = [({ id := s.nextBookId, title := c.title, author := c.author,
            isbn := c.isbn, category := c.category, copies := c.copies } : Book)] := by
    rw [List.filter_append, hnil, List.nil_append]
    simp [hnb]
  obtain ⟨s', b', h1, h2, h3⟩ :=
    addBookSeq_merge_fold nt ni cs (DBLib.addBook e c).1 _
      ({ id := s.nextBookId, title := c.title, author := c.author,
         isbn := c.isbn, category := c.category, copies := c.copies } : Book)
      hc.1 (fun x hx => hkey x (List.mem_cons_of_mem c hx)) hf1
  have hlb : liveBooks (DBLib.addBookSeq e (c :: cs)) = s'.books := by
    have : (DBLib.addBookSeq e (c :: cs)).live = .openDB s' := h1
    simp [liveBooks, DB.liveState, this]
  refine ⟨?_, ?_, hc.2⟩
  · rw [hlb, h2]
    rfl
  · rw [hlb, h2]
    simp [h3]

/-- Witness for `c4_addBook_duplicate_merge`: two `addBook` calls whose
(title, isbn) agree after trim and case fold ("Hobbit"/"999" then
" hobbit"/"999 ") leave exactly one matching row holding 2 + 3 = 5 copies;
the first call reports a create outcome. -/
theorem c4_addBook_duplicate_merge_witness :
    ((liveBooks (DBLib.addBookSeq sampleEngine
        [{ title := "Hobbit", author := "Tolkien", isbn := "999",
           category := "Fantasy", copies := 2 },
         { title := " hobbit", author := "Tolkien", isbn := "999 ",
           category := "Fantasy", copies := 3 }])).filter
      (matchesKey "hobbit" "999")).length = 1 ∧
    (((liveBooks (DBLib.addBookSeq sampleEngine
        [{ title := "Hobbit", author := "Tolkien", isbn := "999",
           category := "Fantasy", copies := 2 },
         { title := " hobbit", author := "Tolkien", isbn := "999 ",
           category := "Fantasy", copies := 3 }])).filter
      (matchesKey "hobbit" "999")).map (fun b => b.copies)).sum
      = (([{ title := "Hobbit", author := "Tolkien", isbn := "999",
             category := "Fantasy", copies := 2 },
           { title := " hobbit", author := "Tolkien", isbn := "999 ",
             category := "Fantasy", copies := 3 }] :
          List DBLib.AddBookArgs).map (fun a => a.copies)).sum ∧
    (DBLib.addBook sampleEngine
        { title := "Hobbit", author := "Tolkien", isbn := "999",
          category := "Fantasy", copies := 2 }).2
      = .ok { id := sampleState.nextBookId, merged := false, copies := 2 } :=
  c4_addBook_duplicate_merge sampleEngine sampleState "hobbit" "999"
    { title := "Hobbit", author := "Tolkien", isbn := "999",
      category := "Fantasy", copies := 2 }
    [{ title := " hobbit", author := "Tolkien", isbn := "999 ",
       category := "Fantasy", copies := 3 }]
    rfl (by decide) (by decide)

/-- Rows whose generator is empty can be dropped before a `flatMap`:
filtering them out does not change the result. -/
theorem flatMap_filter_of_empty {α β : Type} (p : α → Bool) (f : α → List β)
    (l : List α) (h : ∀ b ∈ l, p b = false → f b = []) :
    (l.filter p).flatMap f = l.flatMap f := by
  induction l with
  | nil => rfl
  | cons a t ih =>
      have iht := ih (fun b hb hpb => h b (List.mem_cons_of_mem a hb) hpb)
      cases hpa : p a with
      | true => simp [List.filter_cons, hpa, iht]
      | false => simp [List.filter_cons, hpa, h a (List.mem_cons_self a t) hpa, iht]

/-- Dropping via `p` an element that a count predicate `q` selects strictly
decreases the `q`-count. -/
theorem length_filter_filter_lt {α : Type} (p q : α → Bool) (l : List α)
    (x : α) (hx : x ∈ l) (hq : q x = true) (hp : p x = false) :
    ((l.filter p).filter q).length < (l.filter q).length := by
  induction l with
  | nil => cases hx
  | cons a t ih =>
      have hle : ((t.filter p).filter q).length ≤ (t.filter q).length :=
        List.Sublist.length_le ((List.filter_sublist t).filter q)
      simp only [List.filter_filter] at hle
      rcases List.mem_cons.mp hx with hxa | hxt
      · subst hxa
        simp [List.filter_cons, hp, hq]
        omega
      · have iht := ih hxt
        simp only [List.filter_filter] at iht
        cases hpa : p a <;> cases hqa : q a <;>
          simp [List.filter_cons, hpa, hqa] <;> omega

/-- Drop every Borrow row referencing book id `bid` (used to express that
dangling loan rows are invisible to the join-based queries). -/
def dropBookRefs (s : DBState) (bid : Nat) : DBState :=
  { s with borrows := s.borrows.filter (fun b => !(b.book_id == bid)) }

/-- C9: a Borrow row whose `book_id` matches no Book row is invisible to
`getAllBorrows` (any search term) and to `getStats`' `topBooks` and
`dueToday` (all inner-join with books): dropping every borrow referencing
that missing book changes none of those results.  Yet the row is still
counted by `getStats`' `activeLoans` / `returnedLoans` / `overdueCount`
(computed on borrows alone): dropping the dangling rows strictly decreases
the count the row falls under. -/
theorem c9_dangling_borrow (s : DBState) (br : Borrow) (term today : String)
    (hbr : br ∈ s.borrows)
    (hdangling : ∀ bk ∈ s.books, bk.id ≠ br.book_id) :
    (DBLib.getAllBorrows s term
      = DBLib.getAllBorrows (dropBookRefs s br.book_id) term) ∧
    ((DBLib.getStats s today).topBooks
      = (DBLib.getStats (dropBookRefs s br.book_id) today).topBooks) ∧
    ((DBLib.getStats s today).dueToday
      = (DBLib.getStats (dropBookRefs s br.book_id) today).dueToday) ∧
    (br.return_date = none →
      (DBLib.getStats (dropBookRefs s br.book_id) today).activeLoans
        < (DBLib.getStats s today).activeLoans) ∧
    (br.return_date ≠ none →
      (DBLib.getStats (dropBookRefs s br.book_id) today).returnedLoans
        < (DBLib.getStats s today).returnedLoans) ∧
    (br.return_date = none → br.due_date < today →
      (DBLib.getStats (dropBookRefs s br.book_id) today).overdueCount
        < (DBLib.getStats s today).overdueCount) := by
  have hp : (fun b : Borrow => !(b.book_id == br.book_id)) br = false := by simp
  have hempty : ∀ b ∈ s.borrows,
      (fun b : Borrow => !(b.book_id == br.book_id)) b = false →
      s.books.filter (fun bk => bk.id == b.book_id) = [] := by
    intro b _ hpb
    have hbid : b.book_id = br.book_id := by simpa using hpb
    rw [List.filter_eq_nil_iff]
    intro bk hbk
    simp [hbid, hdangling bk hbk]
  refine ⟨?_, ?_, ?_, ?_, ?_, ?_⟩
  · exact (flatMap_filter_of_empty _ _ s.borrows (by
      intro b hb hpb
      show (s.books.filter (fun bk => bk.id == b.book_id)).filterMap _ = []
      rw [hempty b hb hpb]
      rfl)).symm
  · have hbase : DBLib.topBooksBase s = DBLib.topBooksBase (dropBookRefs s br.book_id) := by
      simp only [DBLib.topBooksBase, dropBookRefs]
      apply List.filterMap_congr
      intro bk hbk
      have hcount : ((s.borrows.filter (fun b : Borrow => !(b.book_id == br.book_id))).filter
          (fun b => b.book_id == bk.id)).length
          = (s.borrows.filter (fun b => b.book_id == bk.id)).length := by
        rw [List.filter_filter]
        congr 1
        apply List.filter_congr
        intro b _
        by_cases hq : b.book_id = bk.id
        · simp [hq, hdangling bk hbk]
        · simp [hq]
      rw [hcount]
    show (DBLib.sortByCountDesc (DBLib.topBooksBase s)).take 5
      = (DBLib.sortByCountDesc (DBLib.topBooksBase (dropBookRefs s br.book_id))).take 5
    rw [hbase]
  · exact (flatMap_filter_of_empty _ _ s.borrows (by
      intro b hb hpb
      show (s.books.filter (fun bk => bk.id == b.book_id)).filterMap _ = []
      rw [hempty b hb hpb]
      rfl)).symm
  · intro hopen
    exact length_filter_filter_lt _ _ s.borrows br hbr (by simp [hopen]) hp
  · intro hclosed
    exact length_filter_filter_lt _ _ s.borrows br hbr (by simp [hclosed]) hp
  · intro hopen hdue
    exact length_filter_filter_lt _ _ s.borrows br hbr (by simp [hopen, hdue]) hp

/-- An open loan whose book id (77) matches no Book row — e.g. the Book was
deleted after the loans closed out and this row was inserted against it. -/
def danglingBorrow : Borrow :=
  { id := 3, book_id := 77, borrower := "Eve", date_out := "2025-01-02",
    due_date := "2025-01-05", return_date := none }

/-- Sample database containing a dangling open borrow. -/
def sampleStateDangling : DBState :=
  { sampleState with
    borrows := [sampleClosedBorrow, danglingBorrow], nextBorrowId := 4 }

/-- Witness for `c9_dangling_borrow`: with the dangling open borrow present,
the join-based query results are unchanged by dropping it, while
`activeLoans` and `overdueCount` strictly decrease. -/
theorem c9_dangling_borrow_witness :
    (DBLib.getAllBorrows sampleStateDangling "e"
      = DBLib.getAllBorrows
          (dropBookRefs sampleStateDangling danglingBorrow.book_id) "e") ∧
    ((DBLib.getStats sampleStateDangling "2025-01-10").topBooks
      = (DBLib.getStats
          (dropBookRefs sampleStateDangling danglingBorrow.book_id) "2025-01-10").topBooks) ∧
    ((DBLib.getStats sampleStateDangling "2025-01-10").dueToday
      = (DBLib.getStats
          (dropBookRefs sampleStateDangling danglingBorrow.book_id) "2025-01-10").dueToday) ∧
    (danglingBorrow.return_date = none →
      (DBLib.getStats
          (dropBookRefs sampleStateDangling danglingBorrow.book_id) "2025-01-10").activeLoans
        < (DBLib.getStats sampleStateDangling "2025-01-10").activeLoans) ∧
    (danglingBorrow.return_date ≠ none →
      (DBLib.getStats
          (dropBookRefs sampleStateDangling danglingBorrow.book_id) "2025-01-10").returnedLoans
        < (DBLib.getStats sampleStateDangling "2025-01-10").returnedLoans) ∧
    (danglingBorrow.return_date = none → danglingBorrow.due_date < "2025-01-10" →
      (DBLib.getStats
          (dropBookRefs sampleStateDangling danglingBorrow.book_id) "2025-01-10").overdueCount
        < (DBLib.getStats sampleStateDangling "2025-01-10").overdueCount) :=
  c9_dangling_borrow sampleStateDangling danglingBorrow "e" "2025-01-10"
    (by decide) (by decide)
